import Mathlib

/-!
# Verification of the OMI_V2 PWM-audio firmware

Shallow embedding of the PWM audio engine (`src/PAM8403/src/pwm_audio.c`,
`pwm_audio.h`), the chunked stream reassembler (`speaker_pwm.c` /
`speaker_pwm.h`), and the SD-card numbered audio file store
(`sd_card` sources), together with theorems settling the specification
claims about them.

Conventions of the embedding:
* C machine integers become `Nat`/`Int` with explicit `% 2^w` where
  overflow or a narrowing cast matters.
* C signed integer division (truncation toward zero) is `Int.tdiv`.
* Global state becomes explicit record types threaded through the
  functions (`Engine`, `RampState`, `SpeakerState`, `SdState`, `Card`).
* Hardware and filesystem effects become explicit data: PWM writes are
  logged as `(channel, pulse)` pairs, the filesystem is a `Card` value,
  driver return codes are supplied by an environment function.
-/

set_option autoImplicit false

namespace OmiV2

/-! ## Constants from `pwm_audio.h` and `speaker_pwm.h` -/

/-- `PWM_AUDIO_PWM_FREQ` (pwm_audio.h line 17): 1 MHz PWM frequency. -/
def PWM_AUDIO_PWM_FREQ : Nat := 1000000

/-- `PWM_AUDIO_PERIOD_NS` (pwm_audio.h line 19): `1000000000ULL / PWM_AUDIO_PWM_FREQ`. -/
def PWM_AUDIO_PERIOD_NS : Nat := 1000000000 / PWM_AUDIO_PWM_FREQ

/-- `PWM_AUDIO_MAX_VOLUME` (pwm_audio.h line 20). -/
def PWM_AUDIO_MAX_VOLUME : Nat := 180

/-- `PWM_AUDIO_MUTE_RAMP_STEPS` (pwm_audio.h line 24). -/
def PWM_AUDIO_MUTE_RAMP_STEPS : Nat := 20

/-- `MAX_BLOCK_SIZE` (speaker_pwm.h line 20), bytes of the working buffer. -/
def MAX_BLOCK_SIZE : Nat := 10000

/-- `PACKET_SIZE` (speaker_pwm.h line 24), bytes per data chunk. -/
def PACKET_SIZE : Nat := 400

/-- Zephyr errno `ENODEV`; the engine returns `-ENODEV`. -/
def ENODEV : Int := 19

/-! ## Sample codec: `audio_sample_to_pwm` (pwm_audio.c lines 35-59)

The C function reads the global `current_volume`; here the volume is an
explicit first argument.  `sample` is the `int16_t` argument, `scaled`
the `int32_t` intermediate (no overflow is possible at these ranges, so
plain `Int` is exact), and the final pulse width is a `Nat`. -/

def audio_sample_to_pwm (current_volume : Nat) (sample : Int) : Nat :=
  let scaled : Int := Int.tdiv (sample * (current_volume : Int)) 256
  let scaled : Int := if scaled > 127 then 127 else scaled
  let scaled : Int := if scaled < -128 then -128 else scaled
  let unsigned_sample : Nat := (scaled + 128).toNat
  let pulse_width : Nat := unsigned_sample * PWM_AUDIO_PERIOD_NS / 256
  let pulse_width : Nat :=
    if pulse_width < PWM_AUDIO_PERIOD_NS / 256 then PWM_AUDIO_PERIOD_NS / 256 else pulse_width
  let pulse_width : Nat :=
    if pulse_width > PWM_AUDIO_PERIOD_NS - PWM_AUDIO_PERIOD_NS / 256 then
      PWM_AUDIO_PERIOD_NS - PWM_AUDIO_PERIOD_NS / 256
    else pulse_width
  pulse_width

/-! ### Helper lemmas for the codec -/

/-- C signed division (truncation toward zero) by a positive constant is
monotone in the numerator. -/
theorem tdiv_le_tdiv_of_le {a b c : Int} (hc : 0 < c) (hab : a ≤ b) :
    Int.tdiv a c ≤ Int.tdiv b c := by
  rcases le_or_lt 0 a with ha | ha
  · rw [Int.tdiv_eq_ediv ha hc.le, Int.tdiv_eq_ediv (ha.trans hab) hc.le]
    exact Int.ediv_le_ediv hc hab
  · rcases le_or_lt 0 b with hb | hb
    · have h2 : 0 ≤ Int.tdiv (-a) c := Int.tdiv_nonneg (by omega) hc.le
      rw [Int.neg_tdiv] at h2
      exact le_trans (by omega) (Int.tdiv_nonneg hb hc.le)
    · have h2 : Int.tdiv (-b) c ≤ Int.tdiv (-a) c := by
        rw [Int.tdiv_eq_ediv (by omega) hc.le, Int.tdiv_eq_ediv (by omega) hc.le]
        exact Int.ediv_le_ediv hc (by omega)
      rw [Int.neg_tdiv, Int.neg_tdiv] at h2
      omega

/-- The codec output always lies in `[3, 996]`, volume and sample
unconstrained: the clipping stage bounds the scaled sample before the
pulse-width conversion. -/
theorem audio_sample_to_pwm_range (v : Nat) (s : Int) :
    3 ≤ audio_sample_to_pwm v s ∧ audio_sample_to_pwm v s ≤ 996 := by
  simp only [audio_sample_to_pwm, PWM_AUDIO_PERIOD_NS, PWM_AUDIO_PWM_FREQ]
  split_ifs <;> omega

/-- C3: for every 16-bit sample and every volume in `[0, 180]`, the
sample codec `audio_sample_to_pwm` produces a pulse width inside
`[PERIOD_NS/256, PERIOD_NS - PERIOD_NS/256]`, i.e. `[3, 997]` for the
1000 ns period: the output never reaches the 0% or 100% rail. -/
theorem audio_sample_to_pwm_never_rails (v : Nat) (s : Int)
    (hv : v ≤ PWM_AUDIO_MAX_VOLUME) (hlo : -32768 ≤ s) (hhi : s ≤ 32767) :
    PWM_AUDIO_PERIOD_NS / 256 ≤ audio_sample_to_pwm v s ∧
      audio_sample_to_pwm v s ≤ PWM_AUDIO_PERIOD_NS - PWM_AUDIO_PERIOD_NS / 256 ∧
      PWM_AUDIO_PERIOD_NS / 256 = 3 ∧
      PWM_AUDIO_PERIOD_NS - PWM_AUDIO_PERIOD_NS / 256 = 997 := by
  have h := audio_sample_to_pwm_range v s
  refine ⟨?_, ?_, by decide, by decide⟩ <;>
    simp only [PWM_AUDIO_PERIOD_NS, PWM_AUDIO_PWM_FREQ] <;> omega

/-- Witness for C3: the bounds hold at the extreme sample `-32768` with
the maximum volume `180`. -/
theorem audio_sample_to_pwm_never_rails_witness :
    PWM_AUDIO_PERIOD_NS / 256 ≤ audio_sample_to_pwm 180 (-32768) ∧
      audio_sample_to_pwm 180 (-32768) ≤ PWM_AUDIO_PERIOD_NS - PWM_AUDIO_PERIOD_NS / 256 ∧
      PWM_AUDIO_PERIOD_NS / 256 = 3 ∧
      PWM_AUDIO_PERIOD_NS - PWM_AUDIO_PERIOD_NS / 256 = 997 :=
  audio_sample_to_pwm_never_rails 180 (-32768) (by decide) (by decide) (by decide)

/-- The clipping stage of the codec (pwm_audio.c lines 41-42), split out
so monotonicity can be proved stage by stage. -/
def clip8 (scaled : Int) : Int :=
  let s1 : Int := if scaled > 127 then 127 else scaled
  if s1 < -128 then -128 else s1

/-- The rail-clamping stage of the codec (pwm_audio.c lines 51-56). -/
def railClamp (pulse_width : Nat) : Nat :=
  let p1 : Nat :=
    if pulse_width < PWM_AUDIO_PERIOD_NS / 256 then PWM_AUDIO_PERIOD_NS / 256 else pulse_width
  if p1 > PWM_AUDIO_PERIOD_NS - PWM_AUDIO_PERIOD_NS / 256 then
    PWM_AUDIO_PERIOD_NS - PWM_AUDIO_PERIOD_NS / 256
  else p1

theorem audio_sample_to_pwm_eq (v : Nat) (s : Int) :
    audio_sample_to_pwm v s =
      railClamp ((clip8 (Int.tdiv (s * (v : Int)) 256) + 128).toNat * PWM_AUDIO_PERIOD_NS / 256) :=
  rfl

theorem clip8_mono {a b : Int} (h : a ≤ b) : clip8 a ≤ clip8 b := by
  simp only [clip8]
  split_ifs <;> omega

theorem railClamp_mono {p q : Nat} (h : p ≤ q) : railClamp p ≤ railClamp q := by
  simp only [railClamp, PWM_AUDIO_PERIOD_NS, PWM_AUDIO_PWM_FREQ]
  split_ifs <;> omega

/-- C6: for a fixed positive volume the sample codec is monotone:
a smaller sample never yields a larger pulse width. -/
theorem audio_sample_to_pwm_mono (v : Nat) (hv : 0 < v) (s1 s2 : Int)
    (h12 : s1 ≤ s2) (hlo : -32768 ≤ s1) (hhi : s2 ≤ 32767) :
    audio_sample_to_pwm v s1 ≤ audio_sample_to_pwm v s2 := by
  have hmul : s1 * (v : Int) ≤ s2 * (v : Int) :=
    mul_le_mul_of_nonneg_right h12 (by positivity)
  have hd : Int.tdiv (s1 * (v : Int)) 256 ≤ Int.tdiv (s2 * (v : Int)) 256 :=
    tdiv_le_tdiv_of_le (by omega) hmul
  rw [audio_sample_to_pwm_eq, audio_sample_to_pwm_eq]
  exact railClamp_mono (Nat.div_le_div_right
    (Nat.mul_le_mul (Int.toNat_le_toNat (add_le_add_right (clip8_mono hd) 128)) (Nat.le_refl _)))

/-- Witness for C6: monotonicity applied at volume 180 to the sample
pair `(-1000, 1000)`. -/
theorem audio_sample_to_pwm_mono_witness :
    audio_sample_to_pwm 180 (-1000) ≤ audio_sample_to_pwm 180 1000 :=
  audio_sample_to_pwm_mono 180 (by decide) (-1000) 1000 (by decide) (by decide) (by decide)

/-! ## The PWM audio engine state (pwm_audio.c lines 25-32)

The C globals `current_volume`, `is_muted`, `is_initialized` become an
`Engine` record (`is_init` models `is_initialized`); the static locals of
`mute_ramp_callback` (`ramp_step`, `target_volume`, `ramping_to_mute`)
plus the running/stopped state of `mute_ramp_timer` become a `RampState`
record.  A PWM hardware write `pwm_set(dev, 0, period, pulse, 0)` is
logged as a `(channel, pulse)` pair. -/

inductive PwmChan where
  | left
  | right
deriving DecidableEq

structure Engine where
  current_volume : Nat
  is_muted : Bool
  is_init : Bool
deriving DecidableEq

structure RampState where
  ramp_step : Nat
  target_volume : Nat
  ramping_to_mute : Bool
  timer_running : Bool
deriving DecidableEq

/-- Initial values of the globals (pwm_audio.c lines 26-28):
`current_volume = PWM_AUDIO_MAX_VOLUME`, unmuted, not yet initialized. -/
def engine_start : Engine :=
  { current_volume := PWM_AUDIO_MAX_VOLUME, is_muted := false, is_init := false }

/-- Initial values of the callback statics and the timer. -/
def ramp_start : RampState :=
  { ramp_step := 0, target_volume := 0, ramping_to_mute := false, timer_running := false }

/-- `pwm_audio_set_volume` (pwm_audio.c lines 280-288). -/
def pwm_audio_set_volume (volume : Nat) (e : Engine) : Engine :=
  { e with current_volume :=
      if volume > PWM_AUDIO_MAX_VOLUME then PWM_AUDIO_MAX_VOLUME else volume }

/-- `mute_ramp_callback` (pwm_audio.c lines 62-106).  `step_volume` is a
`uint8_t` assigned from `int` expressions, hence the `% 256`; the
subtraction `current_volume - step_volume` is performed in `int` and
narrowed back to `uint8_t`, modelled as `(cur + 256 - sv) % 256` (both
operands are below 256).  Returns the new statics/timer state, the new
engine state, and the PWM writes issued on completion of a mute ramp. -/
def mute_ramp_callback (r : RampState) (e : Engine) :
    RampState × Engine × List (PwmChan × Nat) :=
  let target_volume : Nat :=
    if r.ramp_step = 0 then (if e.is_muted then 0 else PWM_AUDIO_MAX_VOLUME)
    else r.target_volume
  let ramping_to_mute : Bool :=
    if r.ramp_step = 0 then (if e.is_muted then true else false)
    else r.ramping_to_mute
  let step_volume : Nat := target_volume * r.ramp_step / PWM_AUDIO_MUTE_RAMP_STEPS % 256
  let step_volume : Nat :=
    if ramping_to_mute then (e.current_volume + 256 - step_volume) % 256 else step_volume
  let e : Engine := pwm_audio_set_volume step_volume e
  let ramp_step : Nat := (r.ramp_step + 1) % 256
  if ramp_step ≥ PWM_AUDIO_MUTE_RAMP_STEPS then
    ({ ramp_step := 0, target_volume := target_volume,
       ramping_to_mute := ramping_to_mute, timer_running := false },
     e,
     if ramping_to_mute then
       [(PwmChan.left, PWM_AUDIO_PERIOD_NS / 2), (PwmChan.right, PWM_AUDIO_PERIOD_NS / 2)]
     else [])
  else
    ({ ramp_step := ramp_step, target_volume := target_volume,
       ramping_to_mute := ramping_to_mute, timer_running := r.timer_running },
     e, [])

/-- `pwm_audio_mute` (pwm_audio.c lines 246-261): requires the engine to
be initialized; if unmuted, sets the mute flag and starts the ramp
timer. -/
def pwm_audio_mute (e : Engine) (r : RampState) : Engine × RampState :=
  if ¬ e.is_init then (e, r)
  else if ¬ e.is_muted then ({ e with is_muted := true }, { r with timer_running := true })
  else (e, r)

/-- `pwm_audio_unmute` (pwm_audio.c lines 263-278). -/
def pwm_audio_unmute (e : Engine) (r : RampState) : Engine × RampState :=
  if ¬ e.is_init then (e, r)
  else if e.is_muted then ({ e with is_muted := false }, { r with timer_running := true })
  else (e, r)

/-- State effect of `pwm_audio_init` (pwm_audio.c lines 108-158):
already-initialized is a no-op; `ok` abstracts whether the device
checks, PWM writes and amplifier init all succeed, in which case the
engine starts muted and initialized.  On failure nothing is stored. -/
def pwm_audio_init_state (ok : Bool) (e : Engine) : Engine :=
  if e.is_init then e
  else if ok then { e with is_muted := true, is_init := true } else e

/-- Run `n` periodic ticks of `mute_ramp_callback`, collecting all PWM
writes in order. -/
def runRampTicks : Nat → RampState → Engine → RampState × Engine × List (PwmChan × Nat)
  | 0, r, e => (r, e, [])
  | n + 1, r, e =>
    let p := mute_ramp_callback r e
    let q := runRampTicks n p.1 p.2.1
    (q.1, q.2.1, p.2.2 ++ q.2.2)

/-! ## Playback entry points (pwm_audio.c lines 160-244)

`env k` is the return code of the `k`-th `pwm_set` call of the
invocation (0 on success); the loop aborts on the first failing write,
as in the source.  The result is the C return value paired with the
list of attempted PWM writes. -/

/-- The stereo loop of `pwm_audio_play` (lines 176-199): consumes
interleaved pairs; a trailing unpaired sample is ignored by the loop
condition `i < samples && i + 1 < samples`. -/
def play_loop (vol : Nat) (buf : List Int) (env : Nat → Int) (idx : Nat) :
    Int × List (PwmChan × Nat) :=
  match buf with
  | left_sample :: right_sample :: rest =>
    let left_pulse := audio_sample_to_pwm vol left_sample
    let right_pulse := audio_sample_to_pwm vol right_sample
    if env idx ≠ 0 then (env idx, [(PwmChan.left, left_pulse)])
    else if env (idx + 1) ≠ 0 then
      (env (idx + 1), [(PwmChan.left, left_pulse), (PwmChan.right, right_pulse)])
    else
      let q := play_loop vol rest env (idx + 2)
      (q.1, (PwmChan.left, left_pulse) :: (PwmChan.right, right_pulse) :: q.2)
  | _ => (0, [])

/-- `pwm_audio_play` (pwm_audio.c lines 160-202). -/
def pwm_audio_play (e : Engine) (buf : List Int) (env : Nat → Int) :
    Int × List (PwmChan × Nat) :=
  if ¬ e.is_init then (-ENODEV, [])
  else if e.is_muted then (0, [])
  else play_loop e.current_volume buf env 0

/-- The mono loop of `pwm_audio_play_mono` (lines 220-241): each sample
is converted once and written to both channels. -/
def play_mono_loop (vol : Nat) (buf : List Int) (env : Nat → Int) (idx : Nat) :
    Int × List (PwmChan × Nat) :=
  match buf with
  | sample :: rest =>
    let pulse := audio_sample_to_pwm vol sample
    if env idx ≠ 0 then (env idx, [(PwmChan.left, pulse)])
    else if env (idx + 1) ≠ 0 then
      (env (idx + 1), [(PwmChan.left, pulse), (PwmChan.right, pulse)])
    else
      let q := play_mono_loop vol rest env (idx + 2)
      (q.1, (PwmChan.left, pulse) :: (PwmChan.right, pulse) :: q.2)
  | [] => (0, [])

/-- `pwm_audio_play_mono` (pwm_audio.c lines 204-244). -/
def pwm_audio_play_mono (e : Engine) (buf : List Int) (env : Nat → Int) :
    Int × List (PwmChan × Nat) :=
  if ¬ e.is_init then (-ENODEV, [])
  else if e.is_muted then (0, [])
  else play_mono_loop e.current_volume buf env 0

/-! ## The mute ramp (claims C2 and C10) -/

/-- State right after a mute request issued while unmuted and
initialized, at stored volume 180 and idle ramp statics. -/
def mute_scenario : Engine × RampState :=
  pwm_audio_mute { current_volume := 180, is_muted := false, is_init := true } ramp_start

/-- C2: evaluation of the code at the spec scenario.  After
`PWM_AUDIO_MUTE_RAMP_STEPS` (= 20) ticks following a mute request issued
while unmuted at volume 180, both channels are set to the exact 50% duty
value `PERIOD_NS/2 = 500`, the timer is stopped and the step counter is
reset — but the stored volume is still 180, not 0: with
`target_volume = 0` the callback computes
`step_volume = current_volume - (0 * step) / STEPS = current_volume`
each tick, so the stored volume never decreases. -/
theorem mute_ramp_run_eval :
    (runRampTicks PWM_AUDIO_MUTE_RAMP_STEPS mute_scenario.2 mute_scenario.1).2.1.current_volume
        = 180 ∧
    ¬ (runRampTicks PWM_AUDIO_MUTE_RAMP_STEPS mute_scenario.2
        mute_scenario.1).2.1.current_volume = 0 ∧
    (runRampTicks PWM_AUDIO_MUTE_RAMP_STEPS mute_scenario.2 mute_scenario.1).1.ramp_step = 0 ∧
    (runRampTicks PWM_AUDIO_MUTE_RAMP_STEPS mute_scenario.2 mute_scenario.1).1.timer_running
        = false ∧
    (runRampTicks PWM_AUDIO_MUTE_RAMP_STEPS mute_scenario.2 mute_scenario.1).2.2 =
      [(PwmChan.left, PWM_AUDIO_PERIOD_NS / 2), (PwmChan.right, PWM_AUDIO_PERIOD_NS / 2)] ∧
    PWM_AUDIO_PERIOD_NS / 2 = 500 := by
  decide

/-- State right after an unmute request issued while muted and
initialized: stored volume `v0`, residual callback statics `t`, `b`. -/
def unmute_scenario (v0 t : Nat) (b : Bool) : Engine × RampState :=
  pwm_audio_unmute { current_volume := v0, is_muted := true, is_init := true }
    { ramp_step := 0, target_volume := t, ramping_to_mute := b, timer_running := false }

/-- The first unmute tick stores volume 0 regardless of the previous
volume and of the residual statics, so the remaining run is concrete. -/
theorem runRampTicks_unmute_shift (v0 t : Nat) (b : Bool) (k : Nat) :
    runRampTicks (k + 1) (unmute_scenario v0 t b).2 (unmute_scenario v0 t b).1 =
      runRampTicks k
        { ramp_step := 1, target_volume := PWM_AUDIO_MAX_VOLUME,
          ramping_to_mute := false, timer_running := true }
        { current_volume := 0, is_muted := false, is_init := true } := by
  have hcb : mute_ramp_callback (unmute_scenario v0 t b).2 (unmute_scenario v0 t b).1 =
      ({ ramp_step := 1, target_volume := PWM_AUDIO_MAX_VOLUME,
         ramping_to_mute := false, timer_running := true },
       { current_volume := 0, is_muted := false, is_init := true },
       ([] : List (PwmChan × Nat))) := by
    simp [unmute_scenario, pwm_audio_unmute, mute_ramp_callback, pwm_audio_set_volume,
      PWM_AUDIO_MAX_VOLUME, PWM_AUDIO_MUTE_RAMP_STEPS]
  rw [runRampTicks, hcb]
  simp [Prod.mk.eta]

/-- C10: during an unmute ramp the volume applied at tick `k`
(`k = 0 .. STEPS-1`) is `MAX_VOLUME * k / STEPS`; the first tick forces
the stored volume to 0 regardless of its previous value, and when the
ramp completes the stored volume is `MAX_VOLUME * (STEPS-1) / STEPS =
171`, strictly below `MAX_VOLUME = 180`: an unmute never restores full
volume. -/
theorem unmute_ramp_profile (v0 t : Nat) (b : Bool) :
    (∀ k, k < PWM_AUDIO_MUTE_RAMP_STEPS →
      (runRampTicks (k + 1) (unmute_scenario v0 t b).2
          (unmute_scenario v0 t b).1).2.1.current_volume
        = PWM_AUDIO_MAX_VOLUME * k / PWM_AUDIO_MUTE_RAMP_STEPS) ∧
    (runRampTicks 1 (unmute_scenario v0 t b).2
        (unmute_scenario v0 t b).1).2.1.current_volume = 0 ∧
    (runRampTicks PWM_AUDIO_MUTE_RAMP_STEPS (unmute_scenario v0 t b).2
        (unmute_scenario v0 t b).1).2.1.current_volume = 171 ∧
    PWM_AUDIO_MAX_VOLUME * (PWM_AUDIO_MUTE_RAMP_STEPS - 1) / PWM_AUDIO_MUTE_RAMP_STEPS = 171 ∧
    171 < PWM_AUDIO_MAX_VOLUME := by
  have hmain : ∀ k, k < PWM_AUDIO_MUTE_RAMP_STEPS →
      (runRampTicks (k + 1) (unmute_scenario v0 t b).2
          (unmute_scenario v0 t b).1).2.1.current_volume
        = PWM_AUDIO_MAX_VOLUME * k / PWM_AUDIO_MUTE_RAMP_STEPS := by
    intro k hk
    rw [runRampTicks_unmute_shift]
    simp only [PWM_AUDIO_MUTE_RAMP_STEPS] at hk
    interval_cases k <;> decide
  refine ⟨hmain, ?_, ?_, by decide, by decide⟩
  · simpa using hmain 0 (by decide)
  · simpa using hmain 19 (by decide)

/-- Witness for C10: the profile evaluated at tick 19 of an unmute ramp
started from stored volume 37. -/
theorem unmute_ramp_profile_witness :
    (runRampTicks (19 + 1) (unmute_scenario 37 0 false).2
        (unmute_scenario 37 0 false).1).2.1.current_volume
      = PWM_AUDIO_MAX_VOLUME * 19 / PWM_AUDIO_MUTE_RAMP_STEPS :=
  (unmute_ramp_profile 37 0 false).1 19 (by decide)

/-! ## Guards of the playback entry points (claim C7) -/

/-- C7: both `pwm_audio_play` and `pwm_audio_play_mono` return `-ENODEV`
when the engine is not initialized, and return 0 without issuing any PWM
write when the engine is initialized but muted. -/
theorem play_guards (e : Engine) (buf : List Int) (env : Nat → Int) :
    (e.is_init = false →
      pwm_audio_play e buf env = (-ENODEV, []) ∧
        pwm_audio_play_mono e buf env = (-ENODEV, [])) ∧
    (e.is_init = true → e.is_muted = true →
      pwm_audio_play e buf env = (0, []) ∧
        pwm_audio_play_mono e buf env = (0, [])) := by
  constructor
  · intro h
    simp [pwm_audio_play, pwm_audio_play_mono, h]
  · intro h1 h2
    simp [pwm_audio_play, pwm_audio_play_mono, h1, h2]

/-- Witness for C7: an uninitialized engine rejects stereo play; an
initialized muted engine accepts mono play without writes. -/
theorem play_guards_witness :
    pwm_audio_play { current_volume := 180, is_muted := false, is_init := false }
        [5, -5] (fun _ => 0) = (-ENODEV, []) ∧
    pwm_audio_play_mono { current_volume := 180, is_muted := true, is_init := true }
        [5, -5] (fun _ => 0) = (0, []) :=
  ⟨((play_guards _ _ _).1 rfl).1, ((play_guards _ _ _).2 rfl rfl).2⟩

/-! ## The volume invariant (claim C8) -/

/-- One engine entry point, as invoked by callers of the C module. -/
inductive EngineOp where
  | init_op (ok : Bool)
  | set_volume_op (v : Nat)
  | mute_op
  | unmute_op
  | ramp_tick_op
  | play_op (buf : List Int) (env : Nat → Int)
  | play_mono_op (buf : List Int) (env : Nat → Int)

/-- State transition of one engine operation.  The play entry points
read but never write the engine state. -/
def engine_step : EngineOp → Engine × RampState → Engine × RampState
  | .init_op ok, (e, r) => (pwm_audio_init_state ok e, r)
  | .set_volume_op v, (e, r) => (pwm_audio_set_volume v e, r)
  | .mute_op, (e, r) => pwm_audio_mute e r
  | .unmute_op, (e, r) => pwm_audio_unmute e r
  | .ramp_tick_op, (e, r) => ((mute_ramp_callback r e).2.1, (mute_ramp_callback r e).1)
  | .play_op _ _, s => s
  | .play_mono_op _ _, s => s

theorem pwm_audio_set_volume_le (v : Nat) (e : Engine) :
    (pwm_audio_set_volume v e).current_volume ≤ PWM_AUDIO_MAX_VOLUME := by
  simp only [pwm_audio_set_volume, PWM_AUDIO_MAX_VOLUME]
  split <;> omega

/-- The engine state produced by a ramp tick is always the result of
`pwm_audio_set_volume` on the previous state. -/
theorem mute_ramp_callback_engine (r : RampState) (e : Engine) :
    ∃ sv, (mute_ramp_callback r e).2.1 = pwm_audio_set_volume sv e := by
  simp only [mute_ramp_callback]
  split_ifs <;> exact ⟨_, rfl⟩

theorem pwm_audio_init_state_volume (ok : Bool) (e : Engine) :
    (pwm_audio_init_state ok e).current_volume = e.current_volume := by
  simp only [pwm_audio_init_state]
  split_ifs <;> rfl

theorem pwm_audio_mute_volume (e : Engine) (r : RampState) :
    (pwm_audio_mute e r).1.current_volume = e.current_volume := by
  simp only [pwm_audio_mute]
  split_ifs <;> rfl

theorem pwm_audio_unmute_volume (e : Engine) (r : RampState) :
    (pwm_audio_unmute e r).1.current_volume = e.current_volume := by
  simp only [pwm_audio_unmute]
  split_ifs <;> rfl

/-- C8: the invariant `current_volume ≤ MAX_VOLUME` (= 180) holds for
the initial engine state and is preserved by every engine operation; in
particular `pwm_audio_set_volume v` stores `min v MAX_VOLUME` for every
byte-ranged input `v`. -/
theorem engine_volume_invariant :
    engine_start.current_volume ≤ PWM_AUDIO_MAX_VOLUME ∧
    (∀ (op : EngineOp) (e : Engine) (r : RampState),
      e.current_volume ≤ PWM_AUDIO_MAX_VOLUME →
      (engine_step op (e, r)).1.current_volume ≤ PWM_AUDIO_MAX_VOLUME) ∧
    (∀ (v : Nat) (e : Engine), v ≤ 255 →
      (pwm_audio_set_volume v e).current_volume = min v PWM_AUDIO_MAX_VOLUME) := by
  refine ⟨by decide, ?_, ?_⟩
  · intro op e r h
    cases op with
    | init_op ok => simpa [engine_step, pwm_audio_init_state_volume] using h
    | set_volume_op v => simpa [engine_step] using pwm_audio_set_volume_le v e
    | mute_op => simpa [engine_step, pwm_audio_mute_volume] using h
    | unmute_op => simpa [engine_step, pwm_audio_unmute_volume] using h
    | ramp_tick_op =>
      obtain ⟨sv, hsv⟩ := mute_ramp_callback_engine r e
      simpa [engine_step, hsv] using pwm_audio_set_volume_le sv e
    | play_op buf env => simpa [engine_step] using h
    | play_mono_op buf env => simpa [engine_step] using h
  · intro v e hv
    show (if v > PWM_AUDIO_MAX_VOLUME then PWM_AUDIO_MAX_VOLUME else v)
        = min v PWM_AUDIO_MAX_VOLUME
    simp only [PWM_AUDIO_MAX_VOLUME]
    split <;> omega

/-- Witness for C8: preservation applied to `set_volume(255)` from a
state at volume 100, and the clamp equation at input 255. -/
theorem engine_volume_invariant_witness :
    (engine_step (EngineOp.set_volume_op 255)
        ({ current_volume := 100, is_muted := false, is_init := true }, ramp_start)).1.current_volume
      ≤ PWM_AUDIO_MAX_VOLUME ∧
    (pwm_audio_set_volume 255
        { current_volume := 100, is_muted := false, is_init := true }).current_volume
      = min 255 PWM_AUDIO_MAX_VOLUME :=
  ⟨engine_volume_invariant.2.1 (EngineOp.set_volume_op 255) _ ramp_start (by decide),
   engine_volume_invariant.2.2 255 _ (by decide)⟩

/-! ## The chunked stream reassembler: `speak` (speaker_pwm.c lines 74-129)

A transport chunk is a list of bytes.  The C code reinterprets the
buffer either as `uint32_t*` (control chunk, little endian) or as
`int16_t*` (data chunk, little-endian signed 16-bit samples); both
decodings are modelled explicitly.  The statics `current_length` and
`offset` are `uint16_t`, hence the `% 65536`; `ptr2` becomes the sample
index `pos` into the working buffer `rx_buffer` (a map from sample index
to `int16_t` value, `MAX_BLOCK_SIZE / 2` = 5000 samples), and each
`pwm_audio_play_mono(rx_buffer, MAX_BLOCK_SIZE / sizeof(int16_t))` call
is logged in `plays` as the snapshot of those 5000 samples. -/

/-- Little-endian signed 16-bit decoding of two bytes, as done by
reading through an `int16_t*`. -/
def le16_sample (b0 b1 : Nat) : Int :=
  let v : Nat := b0 % 256 + 256 * (b1 % 256)
  if 32768 ≤ v then (v : Int) - 65536 else (v : Int)

/-- `((int16_t *)buf)[i]`. -/
def chunk_sample (bytes : List Nat) (i : Nat) : Int :=
  le16_sample (bytes.getD (2 * i) 0) (bytes.getD (2 * i + 1) 0)

/-- `((uint32_t *)buf)[0]`, little endian. -/
def le32_value (bytes : List Nat) : Nat :=
  bytes.getD 0 0 % 256 + 256 * (bytes.getD 1 0 % 256) +
    65536 * (bytes.getD 2 0 % 256) + 16777216 * (bytes.getD 3 0 % 256)

structure SpeakerState where
  current_length : Nat
  offset : Nat
  pos : Nat
  rx_buffer : Nat → Int
  plays : List (List Int)

/-- The copy loop of `speak` (lines 93-97 and 107-111): each source
sample is written twice, `*ptr2++ = s; *ptr2++ = s;`. -/
def copy_dup (samples : List Int) (pos : Nat) (buf : Nat → Int) : Nat × (Nat → Int) :=
  match samples with
  | [] => (pos, buf)
  | s :: rest =>
    copy_dup rest (pos + 2) (fun j => if j = pos then s else if j = pos + 1 then s else buf j)

/-- `speak(len, buf)` (speaker_pwm.c lines 74-129).  Returns the value
`amount` (always `len`) and the new reassembler state.  A 4-byte chunk
is the length header (the `uint32_t` value is narrowed into the
`uint16_t` static `current_length`); otherwise the branch is chosen by
comparing `current_length` with `PACKET_SIZE`: strictly greater copies
and decrements by `PACKET_SIZE`, strictly smaller copies, decrements by
`len` (`uint16_t` wrap-around), plays the whole working buffer and
clears it.  When `current_length = PACKET_SIZE` neither branch runs. -/
def speak (len : Nat) (bytes : List Nat) (st : SpeakerState) : Nat × SpeakerState :=
  let amount := len
  if len = 4 then
    (amount, { st with current_length := le32_value bytes % 65536, pos := 0 })
  else if st.current_length > PACKET_SIZE then
    let samples := (List.range (len / 2)).map (chunk_sample bytes)
    let cp := copy_dup samples st.pos st.rx_buffer
    (amount, { st with
        current_length := st.current_length - PACKET_SIZE,
        pos := cp.1,
        rx_buffer := cp.2,
        offset := (st.offset + len) % 65536 })
  else if st.current_length < PACKET_SIZE then
    let samples := (List.range (len / 2)).map (chunk_sample bytes)
    let cp := copy_dup samples st.pos st.rx_buffer
    (amount, { st with
        current_length := (st.current_length + 65536 - len % 65536) % 65536,
        pos := cp.1,
        rx_buffer := fun _ => 0,
        offset := 0,
        plays := st.plays ++ [(List.range (MAX_BLOCK_SIZE / 2)).map cp.2] })
  else
    (amount, st)

/-- Control chunk carrying `total_length = 800` as 4 little-endian
bytes. -/
def speak_ctrl_800 : List Nat := [32, 3, 0, 0]

/-- A 400-byte data chunk (all-zero samples). -/
def speak_data_400 : List Nat := List.replicate 400 0

/-- Reassembler state at boot: statics zero-initialized, buffer
cleared by `speaker_init`. -/
def speak_start : SpeakerState :=
  { current_length := 0, offset := 0, pos := 0, rx_buffer := fun _ => 0, plays := [] }

/-- The state after the control chunk and both 400-byte data chunks. -/
def speak_run_800 : SpeakerState :=
  (speak 400 speak_data_400
    (speak 400 speak_data_400
      (speak 4 speak_ctrl_800 speak_start).2).2).2

/-- C1: evaluation of the code at the spec scenario.  After the header
`total_length = 800` and two 400-byte data chunks, no `play_mono` call
has happened at all (the claim expects exactly one): the first data
chunk leaves `remaining = 400 = PACKET_SIZE`, which matches neither the
`>` branch nor the `<` branch of `speak`, so the second chunk is ignored
and the stream stays stuck at `current_length = 400`. -/
theorem speak_800_two_chunks_no_play :
    speak_run_800.plays = [] ∧
    speak_run_800.plays.length = 0 ∧
    speak_run_800.current_length = PACKET_SIZE ∧
    (speak 4 speak_ctrl_800 speak_start).2.current_length = 800 := by
  constructor
  · rfl
  · exact ⟨rfl, by decide, by decide⟩

/-! ## The numbered audio file store (sd_card sources)

`generate_new_audio_header` is modelled exactly (it builds the 13-byte
name `audio/aNN.txt`, returning `NULL` — here `none` — for `num > 99`).
The other operations address audio files only through that naming rule,
so the filesystem is abstracted to a `Card`: the set (list) of audio
file numbers whose file `/SD:audio/aNN.txt` exists, plus whether the
audio directory exists.  `fs_stat` on the file named for `num` succeeds
exactly when the directory exists and `num` is present; `fs_unlink` on a
file fails when it does not exist; `fs_unlink` on the directory succeeds
only when it is empty; `fs_open(... O_CREATE)` creates the file if
missing.  The cursors `current_read_file` / `current_write_file` and the
static `file_count` form `SdState`. -/

/-- `generate_new_audio_header` (sd_card source lines 300-320): `none`
models the `NULL` return for `num > 99`; otherwise the 13-character
name `audio/aNN.txt` with the two-digit zero-padded number. -/
def generate_new_audio_header (num : Nat) : Option String :=
  if num > 99 then none
  else some ("audio/a" ++ String.singleton (Char.ofNat (48 + num / 10)) ++
    String.singleton (Char.ofNat (48 + num % 10)) ++ ".txt")

structure Card where
  audio_files : List Nat
  audio_dir : Bool
deriving DecidableEq

structure SdState where
  file_count : Nat
  current_read_file : Nat
  current_write_file : Nat
deriving DecidableEq

/-- Whether `fs_stat` on the audio file named for `num` succeeds. -/
def audio_stat (num : Nat) (c : Card) : Prop :=
  c.audio_dir = true ∧ num ∈ c.audio_files

instance (num : Nat) (c : Card) : Decidable (audio_stat num c) := by
  unfold audio_stat
  infer_instance

/-- `move_read_pointer` (sd_card source lines 708-721): stat the file
named for `num`; on failure return `-1` leaving the cursor unchanged,
on success store `num` in `current_read_file` and return 0. -/
def move_read_pointer (num : Nat) (c : Card) (st : SdState) : Int × SdState :=
  if audio_stat num c then (0, { st with current_read_file := num })
  else (-1, st)

/-- `move_write_pointer` (sd_card source lines 723-736). -/
def move_write_pointer (num : Nat) (c : Card) (st : SdState) : Int × SdState :=
  if audio_stat num c then (0, { st with current_write_file := num })
  else (-1, st)

/-- `delete_audio_file` (sd_card source lines 761-773): `fs_unlink` of
the file named for `num`, `-1` if it does not exist. -/
def delete_audio_file (num : Nat) (c : Card) : Int × Card :=
  if audio_stat num c then (0, { c with audio_files := c.audio_files.erase num })
  else (-1, c)

/-- `fs_unlink("/SD:/audio")`: succeeds only on an existing empty
directory. -/
def unlink_audio_dir (c : Card) : Int × Card :=
  if c.audio_dir = true ∧ c.audio_files = [] then (0, { c with audio_dir := false })
  else (-1, c)

/-- `fs_mkdir("/SD:/audio")`. -/
def mkdir_audio (c : Card) : Int × Card :=
  if c.audio_dir then (-17, c) else (0, { c with audio_dir := true })

/-- `create_file` (sd_card source lines 643-656) applied to an audio
file name: `fs_open` with `FS_O_CREATE` creates the file when missing
(an existing file is kept as is), returning `-2` on failure. -/
def create_file (num : Nat) (c : Card) : Int × Card :=
  if c.audio_dir then
    (0, { c with audio_files :=
        if num ∈ c.audio_files then c.audio_files else num :: c.audio_files })
  else (-2, c)

/-- The deletion loop of `clear_audio_directory`
(`for (uint8_t i = file_count; i > 0; i--)`): deletes the files named
for `i, i-1, ..., 1`, aborting with `-1` on the first failure. -/
def clear_audio_loop : Nat → Card → Int × Card
  | 0, c => (0, c)
  | i + 1, c =>
    let d := delete_audio_file (i + 1) c
    if d.1 ≠ 0 then (-1, d.2) else clear_audio_loop i d.2

/-- `clear_audio_directory` (sd_card source lines 775-814): a no-op
returning 0 when `file_count == 1`; otherwise deletes the files from
`file_count` down to 1, unlinks and recreates the directory, recreates
file 1, resets `file_count` to 1 and moves the write cursor to file 1
(its return value is ignored by the source).  The read cursor is never
touched. -/
def clear_audio_directory (st : SdState) (c : Card) : Int × SdState × Card :=
  if st.file_count = 1 then (0, st, c)
  else
    let d := clear_audio_loop st.file_count c
    if d.1 ≠ 0 then (-1, st, d.2)
    else
      let u := unlink_audio_dir d.2
      if u.1 ≠ 0 then (-1, st, u.2)
      else
        let m := mkdir_audio u.2
        if m.1 ≠ 0 then (-1, st, m.2)
        else
          let f := create_file 1 m.2
          if f.1 ≠ 0 then (-1, st, f.2)
          else
            let st1 : SdState := { st with file_count := 1 }
            let w := move_write_pointer 1 f.2 st1
            (0, w.2, f.2)

/-! ### Claim C5: the naming rule -/

/-- Counterexample for C5 as stated: the code does not reject input 0;
`generate_new_audio_header(0)` returns the name `audio/a00.txt` instead
of the failure value (`NULL`), since the only guard is `num > 99`. -/
theorem generate_new_audio_header_accepts_zero :
    generate_new_audio_header 0 = some "audio/a00.txt" ∧
      generate_new_audio_header 0 ≠ none := by
  constructor <;> decide

/-- C5 (amended): the naming function maps 1 to `audio/a01.txt` and 42
to `audio/a42.txt`, rejects 100 (returns `NULL`), and accepts 0,
producing `audio/a00.txt`. -/
theorem generate_new_audio_header_spec :
    generate_new_audio_header 1 = some "audio/a01.txt" ∧
    generate_new_audio_header 42 = some "audio/a42.txt" ∧
    generate_new_audio_header 100 = none ∧
    generate_new_audio_header 0 = some "audio/a00.txt" := by
  refine ⟨by decide, by decide, by decide, by decide⟩

/-! ### Claim C9: the cursor moves -/

/-- C9: for any file number in the valid naming range `1..99`,
`move_read_pointer` and `move_write_pointer` return the `InvalidFile`
error `-1` exactly when the stat of the file named for that number
fails; on error the whole cursor state is unchanged, and on success the
addressed cursor equals the number while the other cursor is
untouched. -/
theorem move_pointer_spec (num : Nat) (c : Card) (st : SdState)
    (h1 : 1 ≤ num) (h2 : num ≤ 99) :
    ((move_read_pointer num c st).1 = -1 ↔ ¬ audio_stat num c) ∧
    (¬ audio_stat num c → (move_read_pointer num c st).2 = st) ∧
    (audio_stat num c → (move_read_pointer num c st).1 = 0 ∧
      (move_read_pointer num c st).2.current_read_file = num ∧
      (move_read_pointer num c st).2.current_write_file = st.current_write_file) ∧
    ((move_write_pointer num c st).1 = -1 ↔ ¬ audio_stat num c) ∧
    (¬ audio_stat num c → (move_write_pointer num c st).2 = st) ∧
    (audio_stat num c → (move_write_pointer num c st).1 = 0 ∧
      (move_write_pointer num c st).2.current_write_file = num ∧
      (move_write_pointer num c st).2.current_read_file = st.current_read_file) := by
  by_cases h : audio_stat num c <;>
    simp [move_read_pointer, move_write_pointer, h]

/-- Witness for C9: moving the read cursor to the nonexistent file 2 on
a card holding only file 1 fails with `-1`. -/
theorem move_pointer_spec_witness :
    (move_read_pointer 2 { audio_files := [1], audio_dir := true }
        { file_count := 1, current_read_file := 1, current_write_file := 1 }).1 = -1 :=
  ((move_pointer_spec 2 { audio_files := [1], audio_dir := true }
      { file_count := 1, current_read_file := 1, current_write_file := 1 }
      (by decide) (by decide)).1).mpr (by decide)

/-! ### Claim C4: `clear_audio_directory` -/

/-- Card holding files 1..5. -/
def card5 : Card := { audio_files := [1, 2, 3, 4, 5], audio_dir := true }

/-- Store state tracking 5 files, both cursors on file 5. -/
def sd5 : SdState := { file_count := 5, current_read_file := 5, current_write_file := 5 }

/-- Counterexample for C4 as stated: clearing a 5-file directory
succeeds, but the read cursor is left at 5 — the source only calls
`move_write_pointer(1)`, so the claim that both cursors end at file 1 is
false (and the deletion loop `for (i = file_count; i > 0; i--)` runs
down to 1, not 2). -/
theorem clear_audio_directory_counterexample :
    (clear_audio_directory sd5 card5).1 = 0 ∧
    (clear_audio_directory sd5 card5).2.1.current_read_file = 5 ∧
    ¬ (clear_audio_directory sd5 card5).2.1.current_read_file = 1 := by
  refine ⟨by decide, by decide, by decide⟩

theorem succ_not_mem_range_map (n : Nat) : (n + 1) ∉ (List.range n).map Nat.succ := by
  simp only [List.mem_map, List.mem_range]
  rintro ⟨a, ha, hae⟩
  omega

theorem range_map_succ_erase (n : Nat) :
    ((List.range (n + 1)).map Nat.succ).erase (n + 1) = (List.range n).map Nat.succ := by
  rw [List.range_succ, List.map_append,
    List.erase_append_right _ (succ_not_mem_range_map n)]
  simp

/-- Running the deletion loop from `n` on a card holding exactly the
files `1..n` deletes them all and succeeds. -/
theorem clear_audio_loop_all (n : Nat) :
    clear_audio_loop n { audio_files := (List.range n).map Nat.succ, audio_dir := true } =
      (0, { audio_files := [], audio_dir := true }) := by
  induction n with
  | zero => rfl
  | succ n ih =>
    have hstat : audio_stat (n + 1)
        { audio_files := (List.range (n + 1)).map Nat.succ, audio_dir := true } :=
      ⟨rfl, List.mem_map.mpr ⟨n, List.mem_range.mpr (Nat.lt_succ_self n), rfl⟩⟩
    simp [clear_audio_loop, delete_audio_file, hstat, range_map_succ_erase, ih]

/-- C4 (amended): `clear_audio_directory` is a no-op returning success
when the tracked file count is 1; otherwise (directory present, files
`1..file_count` present) it deletes the numbered files from the highest
number down to 1, recreates the directory and file 1, resets the file
count to 1 and moves the *write* cursor to file 1, returning success —
the read cursor is left unchanged. -/
theorem clear_audio_directory_spec (st : SdState) (c : Card) :
    (st.file_count = 1 → clear_audio_directory st c = (0, st, c)) ∧
    (2 ≤ st.file_count → c.audio_dir = true →
      c.audio_files = (List.range st.file_count).map Nat.succ →
      clear_audio_directory st c =
        (0,
         { file_count := 1, current_read_file := st.current_read_file,
           current_write_file := 1 },
         { audio_files := [1], audio_dir := true })) := by
  constructor
  · intro h
    simp [clear_audio_directory, h]
  · intro h2 hd hf
    obtain ⟨files, dir⟩ := c
    simp only at hd hf
    subst hd
    subst hf
    have hne : ¬ st.file_count = 1 := by omega
    simp only [clear_audio_directory, if_neg hne]
    rw [clear_audio_loop_all st.file_count]
    simp [unlink_audio_dir, mkdir_audio, create_file, move_write_pointer, audio_stat]

/-- Witness for C4: clearing a 3-file directory with the read cursor on
file 2 ends with only file 1 on the card, the write cursor on file 1 and
the read cursor still on file 2. -/
theorem clear_audio_directory_spec_witness :
    clear_audio_directory
        { file_count := 3, current_read_file := 2, current_write_file := 3 }
        { audio_files := [1, 2, 3], audio_dir := true } =
      (0, { file_count := 1, current_read_file := 2, current_write_file := 1 },
       { audio_files := [1], audio_dir := true }) :=
  (clear_audio_directory_spec
      { file_count := 3, current_read_file := 2, current_write_file := 3 }
      { audio_files := [1, 2, 3], audio_dir := true }).2
    (by decide) (by decide) (by decide)

end OmiV2
